import Mathlib

/-!
Verification of the provider-agnostic evidence store and verifiable-compute
dispatcher exercised by `packages/sdk/examples/0g_integration_example.py`.

The repository contains only the demonstration script; the `StorageManager`
and `ComputeManager` it exercises live in the `chaoschain_sdk` package, which
is not part of the repository source tree.  Those two managers, their backends
and their result types are therefore modelled from the specification
(sections 3, 4.1, 4.2, 6 and 7); each such definition carries a doc comment
saying so.  The demonstration script itself (the `example_1` .. `example_5`
functions and `main`) is embedded from the source file directly.
-/

/-- Byte payloads are modelled as lists of naturals (one per byte). -/
abbrev Bytes := List Nat

/-- Modelled from the spec: the deterministic content hash over payload bytes
("a deterministic hash (e.g., a cryptographic digest) of the exact bytes
passed in").  The concrete digest function is unspecified; we use a simple
deterministic 64-bit fold, which is enough for every claim (no claim relies
on collision resistance, only on determinism and recomputability). -/
def hashBytes (d : Bytes) : Nat :=
  d.foldl (fun acc b => (acc * 131 + b % 256 + 1) % 18446744073709551616) 5381

/-- Modelled from the spec: string rendering of the content hash, as returned
in `StorageResult.hash`. -/
def hashStr (d : Bytes) : String :=
  "0x" ++ String.mk (Nat.toDigits 16 (hashBytes d))

/-- Modelled from the spec: the enumerated storage `ProviderId` variants
{distributed-storage, pinning-service, local-daemon, memory}, matching the
demo's `StorageProvider.{ZEROG, PINATA, LOCAL_IPFS, MEMORY}`. -/
inductive StorageProvider
  | zerog
  | pinata
  | localIPFS
  | memory
deriving DecidableEq, Repr

/-- Modelled from the spec: each backend's URIs use a distinguishable
scheme/prefix, which is what lets `verify` route a URI to its owning backend
without a side table. -/
def StorageProvider.uriScheme : StorageProvider → String
  | .zerog => "0g://"
  | .pinata => "pinata://"
  | .localIPFS => "ipfs-local://"
  | .memory => "memory://"

/-- Modelled from the spec: the Storage Backend interface.  `putUri` returns
the URI on success and `none` on failure (the content hash of a successful
store is fixed by the Manager's provider-independent contract, so it is not a
backend degree of freedom); `fetch` returns the bytes currently held for a
URI, or `none` when the fetch fails. -/
structure StorageBackend where
  provider : StorageProvider
  putUri : Bytes → Option String
  fetch : String → Option Bytes

/-- Modelled from the spec: the `StorageResult` record
`{success, uri, hash, provider, metadata, error}`. -/
structure StorageResult where
  success : Bool
  uri : String
  hash : String
  provider : Option StorageProvider
  metadata : List (String × String)
  error : Option String
deriving DecidableEq, Repr

/-- Modelled from the spec: the successful result assembled after a backend's
`put` succeeds; its hash is the deterministic content hash of the stored
bytes, independent of the provider. -/
def mkSuccessResult (b : StorageBackend) (uri : String) (d : Bytes)
    (md : List (String × String)) : StorageResult :=
  { success := true, uri := uri, hash := hashStr d, provider := some b.provider
    metadata := md, error := none }

/-- Modelled from the spec: one fallback-chain attempt against one backend;
`none` means the backend failed and the chain proceeds. -/
def attemptPut (b : StorageBackend) (d : Bytes)
    (md : List (String × String)) : Option StorageResult :=
  match b.putUri d with
  | some uri => some (mkSuccessResult b uri d md)
  | none => none

/-- Modelled from the spec: the result returned when every backend in the
chain has failed. -/
def exhaustedResult : StorageResult :=
  { success := false, uri := "", hash := "", provider := none
    metadata := [], error := some "all providers exhausted" }

/-- Modelled from the spec: the result returned when the single explicitly
requested backend fails (no fallback occurs). -/
def providerFailedResult (p : StorageProvider) : StorageResult :=
  { success := false, uri := "", hash := "", provider := some p
    metadata := [], error := some "provider failed" }

/-- Modelled from the spec: the result returned when an explicitly requested
provider is not in the configured list. -/
def unknownProviderResult : StorageResult :=
  { success := false, uri := "", hash := "", provider := none
    metadata := [], error := some "unknown provider" }

/-- Modelled from the spec: the sequential fallback loop — try each backend in
order, first success wins and is returned immediately; a backend failure is
absorbed and the next backend is tried.  Alongside the result we return the
audit trace of providers whose `put` was actually invoked, so that
"no further backends are tried" is a provable statement. -/
def storeChain (d : Bytes) (md : List (String × String)) :
    List StorageBackend → StorageResult × List StorageProvider
  | [] => (exhaustedResult, [])
  | b :: rest =>
    match attemptPut b d md with
    | some r => (r, [b.provider])
    | none =>
      let p := storeChain d md rest
      (p.1, b.provider :: p.2)

/-- Modelled from the spec: the Storage Manager owns the ordered provider
list (primary first, then the fixed fallback chain). -/
structure StorageManager where
  backends : List StorageBackend

/-- Modelled from the spec: `store(data, metadata, provider?)` together with
the trace of providers attempted.  With an explicit provider only that
backend is attempted (no fallback); otherwise the fallback chain runs. -/
def StorageManager.storeT (m : StorageManager) (d : Bytes)
    (md : List (String × String)) :
    Option StorageProvider → StorageResult × List StorageProvider
  | none => storeChain d md m.backends
  | some p =>
    match m.backends.find? (fun b => decide (b.provider = p)) with
    | some b =>
      match attemptPut b d md with
      | some r => (r, [b.provider])
      | none => (providerFailedResult p, [b.provider])
    | none => (unknownProviderResult, [])

/-- Modelled from the spec: `StorageManager.store`. -/
def StorageManager.store (m : StorageManager) (d : Bytes)
    (md : List (String × String)) (p : Option StorageProvider) : StorageResult :=
  (m.storeT d md p).1

/-- Providers whose `put` was invoked during a `store` call (audit trace of
the model; used to state non-invocation properties). -/
def StorageManager.storeAttempted (m : StorageManager) (d : Bytes)
    (md : List (String × String)) (p : Option StorageProvider) :
    List StorageProvider :=
  (m.storeT d md p).2

/-- Modelled from the spec: infer which backend owns a URI from its
distinguishable scheme. -/
def resolveBackend (bs : List StorageBackend) (uri : String) :
    Option StorageBackend :=
  bs.find? (fun b => b.provider.uriScheme.data.isPrefixOf uri.data)

/-- Modelled from the spec: a backend's `get-and-verify` — fetch the bytes,
re-derive the content hash, compare with the expected hash; a failed fetch
yields `false`. -/
def getAndVerify (b : StorageBackend) (uri : String) (expected : String) : Bool :=
  match b.fetch uri with
  | some bytes => hashStr bytes == expected
  | none => false

/-- Modelled from the spec: `StorageManager.verify(uri, expectedHash)` —
resolve the owning backend from the URI and delegate; an unresolvable URI
yields `false`.  Being a total Lean function, it returns a boolean on every
input and cannot raise. -/
def StorageManager.verify (m : StorageManager) (uri expected : String) : Bool :=
  match resolveBackend m.backends uri with
  | some b => getAndVerify b uri expected
  | none => false

/-! ## Compute Manager model -/

/-- Modelled from the spec: the execution receipt returned by a compute
backend's `submit` — raw output plus provider-specific attestation material
and a provider timestamp.  `claimedHash` is a hash string the backend claims
for the execution; the Manager never trusts it. -/
structure ExecutionReceipt where
  rawOutput : Bytes
  attestation : Bytes
  claimedHash : String
  timestamp : Nat
deriving DecidableEq, Repr

/-- Modelled from the spec: the Compute Backend interface,
`submit(functionName, input) -> receipt | failure`. -/
structure ComputeBackend where
  provider : String
  submit : String → Bytes → Option ExecutionReceipt

/-- Modelled from the spec: the verification-method identifiers — a no-op
method and the attestation-based (TEE) method used by the demo
(`VerificationMethod.TEE_ML`). -/
inductive VerificationMethod
  | noVerification
  | teeML
deriving DecidableEq, Repr

/-- Modelled from the spec: canonical byte encoding of a string, used when
serializing `(functionName, data, rawOutput)` for local hashing. -/
def encodeString (s : String) : Bytes :=
  s.data.map Char.toNat

/-- Modelled from the spec: the execution hash the Manager computes locally
over `(functionName, data, rawOutput)`; it never uses the hash supplied by
the backend. -/
def localExecutionHash (functionName : String) (data rawOutput : Bytes) : String :=
  hashStr (encodeString functionName ++ 0 :: data ++ 0 :: rawOutput)

/-- Modelled from the spec: the attestation material a well-behaved trusted
execution environment would produce for a given raw output under a given
attestation root.  The exact attestation format is left open by the spec; the
model only needs a deterministic check against a known root. -/
def expectedAttestation (root : Bytes) (rawOutput : Bytes) : Bytes :=
  encodeString (hashStr (root ++ 0 :: rawOutput))

/-- Modelled from the spec: whether a receipt's attestation blob
cryptographically checks out against the known attestation root. -/
def attestationValid (root : Bytes) (r : ExecutionReceipt) : Bool :=
  r.attestation == expectedAttestation root r.rawOutput

/-- Modelled from the spec: the policy table flagging which verification
methods are bonus-eligible (not all methods grant a bonus even when they
succeed). -/
def bonusEligible : VerificationMethod → Bool
  | .noVerification => false
  | .teeML => true

/-- Modelled from the spec: the fixed reputation-multiplier policy constant
per verification method (trusted-execution attestation yields 1.5x, no
verification 1.0x). -/
def methodMultiplier : VerificationMethod → Rat
  | .noVerification => 1
  | .teeML => 3 / 2

/-- Modelled from the spec: the assembled `ComputeResult` — union of the
execution receipt data, the verification outcome and the logical output. -/
structure ComputeResult where
  provider : String
  verificationMethod : VerificationMethod
  executionHash : String
  proof : String
  output : Bytes
  timestamp : Nat
  verified : Bool
  reputationBonus : Bool
  reputationMultiplier : Rat
deriving DecidableEq, Repr

/-- Modelled from the spec: the Compute Manager configuration — single
primary backend, one verification method, and the attestation trust root the
attestation-based verifier checks against. -/
structure ComputeManager where
  backend : ComputeBackend
  method : VerificationMethod
  attestationRoot : Bytes

/-- Modelled from the spec: the Verifier dispatch — the no-op verifier always
reports `(true, empty proof)`; the attestation-based verifier reports whether
the attestation checks out against the known root, with a proof digest on
success. -/
def ComputeManager.verifyReceipt (m : ComputeManager) (r : ExecutionReceipt) :
    Bool × String :=
  match m.method with
  | .noVerification => (true, "")
  | .teeML =>
    if attestationValid m.attestationRoot r then
      (true, hashStr r.attestation)
    else
      (false, "")

/-- Modelled from the spec: `execute_with_integrity_proof` — submit to the
primary backend (a submission failure is surfaced as `none`, an explicit
error result), compute the execution hash locally, run the configured
verifier, apply the reputation policy, and assemble the result.  A failed
verification still returns the full execution data. -/
def ComputeManager.executeWithIntegrityProof (m : ComputeManager)
    (functionName : String) (data : Bytes) : Option ComputeResult :=
  match m.backend.submit functionName data with
  | none => none
  | some receipt =>
    let v := m.verifyReceipt receipt
    let bonus := v.1 && bonusEligible m.method
    some
      { provider := m.backend.provider
        verificationMethod := m.method
        executionHash := localExecutionHash functionName data receipt.rawOutput
        proof := v.2
        output := receipt.rawOutput
        timestamp := receipt.timestamp
        verified := v.1
        reputationBonus := bonus
        reputationMultiplier := if bonus then methodMultiplier m.method else 1 }

/-! ## JSON view of a compute result -/

/-- A JSON value.  Raw byte blobs are deliberately not a constructor: a value
of this type is JSON-encodable by construction, which is what `json.dumps` in
the demo requires of the whole compute result. -/
inductive Json
  | null
  | bool (b : Bool)
  | num (q : Rat)
  | str (s : String)
  | obj (fields : List (String × Json))
deriving Repr

/-- Key lookup in a JSON object (`none` on non-objects). -/
def Json.lookupKey : Json → String → Option Json
  | .obj fields, k => fields.lookup k
  | _, _ => none

/-- Modelled from the spec: hex-string rendering of raw bytes, used where the
demo embeds byte-valued fields into a JSON evidence package. -/
def bytesToHex (bs : Bytes) : String :=
  String.join (bs.map (fun b => String.mk (Nat.toDigits 16 (b % 256))))

/-- Name of a verification method as serialized in the compute result. -/
def VerificationMethod.methodName : VerificationMethod → String
  | .noVerification => "none"
  | .teeML => "tee-ml"

/-- Modelled from the spec: the string-keyed mapping view of a
`ComputeResult`, as the demo consumes it (`result['provider']`, ...,
`json.dumps(evidence)` with the whole result embedded). -/
def ComputeResult.toJson (r : ComputeResult) : Json :=
  .obj
    [ ("provider", .str r.provider)
    , ("verification_method", .str r.verificationMethod.methodName)
    , ("execution_hash", .str r.executionHash)
    , ("proof", .str r.proof)
    , ("output", .str (bytesToHex r.output))
    , ("timestamp", .num r.timestamp)
    , ("verified", .bool r.verified)
    , ("reputation_bonus", .bool r.reputationBonus)
    , ("reputation_multiplier", .num r.reputationMultiplier) ]

/-! ## The demonstration script

The script itself is in the repository source.  Every side effect the SDK can
perform inside an example's `try` block is abstracted as the `body` argument,
an `Except` value: `.ok v` when the block runs to completion producing `v`,
`.error e` when any statement in it raises exception `e`.  Console rendering
is out of scope per the spec and modelled as effect-free. -/

/-- `example_1_basic_0g_agent`: the try-block yields an agent handle and an
agent id; `except Exception` returns the `(None, None)` sentinel. -/
def example_1_basic_0g_agent {α : Type} (body : Except String (α × Nat)) :
    Option α × Option Nat :=
  match body with
  | .ok (agent, agentId) => (some agent, some agentId)
  | .error _ => (none, none)

/-- `example_2_0g_storage`: the try-block yields `some uri` when the store
succeeded (and verification was printed) or `none` when `result.success` was
false; `except Exception` returns the `None` sentinel. -/
def example_2_0g_storage (body : Except String (Option String)) :
    Option String :=
  match body with
  | .ok v => v
  | .error _ => none

/-- `example_3_0g_compute`: the try-block yields the compute result;
`except Exception` returns the `None` sentinel. -/
def example_3_0g_compute (body : Except String ComputeResult) :
    Option ComputeResult :=
  match body with
  | .ok r => some r
  | .error _ => none

/-- `example_4_complete_workflow`: the try-block ends in `return True`;
`except Exception` returns the `False` sentinel. -/
def example_4_complete_workflow (body : Except String Unit) : Bool :=
  match body with
  | .ok _ => true
  | .error _ => false

/-- `example_5_multi_provider`: the try-block ends in `return True`;
`except Exception` returns the `False` sentinel. -/
def example_5_multi_provider (body : Except String Unit) : Bool :=
  match body with
  | .ok _ => true
  | .error _ => false

/-- `main`: runs the five examples in order, discarding their return values,
then prints the final summary panel (modelled as returning `true`).  Each
example call is a plain (total) value, reflecting that the examples absorb
their exceptions instead of propagating them into `main`. -/
def mainScript {α : Type} (b1 : Except String (α × Nat))
    (b2 : Except String (Option String)) (b3 : Except String ComputeResult)
    (b4 b5 : Except String Unit) : Bool :=
  let r1 := example_1_basic_0g_agent b1
  let r2 := example_2_0g_storage b2
  let r3 := example_3_0g_compute b3
  let r4 := example_4_complete_workflow b4
  let r5 := example_5_multi_provider b5
  let _ := (r1, r2, r3, r4, r5)
  true

/-! ## Concrete fixtures

Small concrete backends and managers mirroring the demo's configuration
(a 0G primary with Pinata / local-IPFS / memory fallbacks), used to evaluate
the theorems at explicit inputs. -/

/-- A concrete payload (the bytes of "hi"). -/
def demoBytes : Bytes := [104, 105]

/-- A memory backend that stores under `memory://obj1` and serves back
`demoBytes`. -/
def memoryBackend : StorageBackend :=
  { provider := .memory
    putUri := fun _ => some "memory://obj1"
    fetch := fun u => if u == "memory://obj1" then some demoBytes else none }

/-- A 0G backend whose `put` always fails (provider unavailable). -/
def failingZerogBackend : StorageBackend :=
  { provider := .zerog, putUri := fun _ => none, fetch := fun _ => none }

/-- A Pinata backend whose `put` always fails. -/
def failingPinataBackend : StorageBackend :=
  { provider := .pinata, putUri := fun _ => none, fetch := fun _ => none }

/-- A Pinata backend that succeeds, storing under `pinata://obj2`. -/
def pinataBackend : StorageBackend :=
  { provider := .pinata
    putUri := fun _ => some "pinata://obj2"
    fetch := fun u => if u == "pinata://obj2" then some demoBytes else none }

/-- A local-IPFS backend that succeeds, storing under `ipfs-local://obj3`. -/
def localIPFSBackend : StorageBackend :=
  { provider := .localIPFS
    putUri := fun _ => some "ipfs-local://obj3"
    fetch := fun _ => none }

/-- A manager with a single (memory) backend. -/
def demoStorageManager : StorageManager := { backends := [memoryBackend] }

/-- A manager whose chain is [fails, succeeds, succeeds] — the fallback
scenario of the spec's testable properties. -/
def fallbackStorageManager : StorageManager :=
  { backends := [failingZerogBackend, pinataBackend, localIPFSBackend] }

/-- A manager whose backends all fail — the exhaustion scenario. -/
def exhaustedStorageManager : StorageManager :=
  { backends := [failingZerogBackend, failingPinataBackend] }

/-- A concrete attestation trust root. -/
def demoRoot : Bytes := [1, 2, 3]

/-- A receipt carrying a valid attestation for its raw output, plus a
backend-claimed hash that the Manager must ignore. -/
def demoReceipt : ExecutionReceipt :=
  { rawOutput := [42]
    attestation := expectedAttestation demoRoot [42]
    claimedHash := "backend-claimed-hash"
    timestamp := 1760054400 }

/-- A compute backend that returns `demoReceipt` for every submission. -/
def demoComputeBackend : ComputeBackend :=
  { provider := "0g-compute", submit := fun _ _ => some demoReceipt }

/-- A TEE-verifying compute manager over the demo backend. -/
def demoComputeManager : ComputeManager :=
  { backend := demoComputeBackend, method := .teeML, attestationRoot := demoRoot }

/-- The compute result of the demo manager on the demo request. -/
def demoComputeResult : ComputeResult :=
  (demoComputeManager.executeWithIntegrityProof "analyze_customer_data" [7]).getD
    { provider := "", verificationMethod := .noVerification, executionHash := ""
      proof := "", output := [], timestamp := 0, verified := false
      reputationBonus := false, reputationMultiplier := 1 }

/-! ## Helper lemmas -/

/-- A content-hash string always starts with "0x", hence is non-empty. -/
theorem hashStr_ne_empty (d : Bytes) : hashStr d ≠ "" := by
  intro h
  have hlen : (hashStr d).length = 0 := by rw [h]; rfl
  rw [hashStr, String.length_append] at hlen
  have h2 : ("0x" : String).length = 2 := rfl
  omega

/-- If every backend in the chain fails, the chain returns the exhausted
result after attempting every backend in order. -/
theorem storeChain_exhausted (d : Bytes) (md : List (String × String))
    (bs : List StorageBackend) (hall : ∀ b ∈ bs, b.putUri d = none) :
    storeChain d md bs = (exhaustedResult, bs.map (fun b => b.provider)) := by
  induction bs with
  | nil => rfl
  | cons b rest ih =>
    have hb : b.putUri d = none := hall b (List.mem_cons_self b rest)
    have hrest : ∀ a ∈ rest, a.putUri d = none :=
      fun a ha => hall a (List.mem_cons_of_mem b ha)
    simp [storeChain, attemptPut, hb, ih hrest]

/-- If every backend before `b` fails and `b` succeeds, the chain returns
`b`'s success result immediately, having attempted exactly the failing
backends and then `b` — the backends after `b` are never invoked. -/
theorem storeChain_first_success (d : Bytes) (md : List (String × String))
    (pre : List StorageBackend) (b : StorageBackend)
    (post : List StorageBackend) (u : String)
    (hpre : ∀ a ∈ pre, a.putUri d = none) (hb : b.putUri d = some u) :
    storeChain d md (pre ++ b :: post) =
      (mkSuccessResult b u d md, pre.map (fun a => a.provider) ++ [b.provider]) := by
  induction pre with
  | nil => simp [storeChain, attemptPut, hb]
  | cons a rest ih =>
    have ha : a.putUri d = none := hpre a (List.mem_cons_self a rest)
    have hrest : ∀ x ∈ rest, x.putUri d = none :=
      fun x hx => hpre x (List.mem_cons_of_mem a hx)
    simp [storeChain, attemptPut, ha, ih hrest]

/-- Shape of a chain result: either exhausted, or the success result of some
backend in the chain whose `put` succeeded. -/
theorem storeChain_shape (d : Bytes) (md : List (String × String))
    (bs : List StorageBackend) :
    (storeChain d md bs).1 = exhaustedResult ∨
      ∃ b u, b ∈ bs ∧ b.putUri d = some u ∧
        (storeChain d md bs).1 = mkSuccessResult b u d md := by
  induction bs with
  | nil => left; rfl
  | cons b rest ih =>
    cases hput : b.putUri d with
    | some u =>
      right
      exact ⟨b, u, List.mem_cons_self b rest, hput, by
        simp [storeChain, attemptPut, hput]⟩
    | none =>
      have hstep : (storeChain d md (b :: rest)).1 = (storeChain d md rest).1 := by
        simp [storeChain, attemptPut, hput]
      rcases ih with hex | ⟨c, u, hc, hcu, heq⟩
      · left; rw [hstep]; exact hex
      · right; exact ⟨c, u, List.mem_cons_of_mem b hc, hcu, by rw [hstep]; exact heq⟩

/-- Shape of any `store` result: one of the three failure results, or the
success result of a backend in the configured list. -/
theorem store_shape (m : StorageManager) (d : Bytes)
    (md : List (String × String)) (p : Option StorageProvider) :
    m.store d md p = exhaustedResult ∨
      m.store d md p = unknownProviderResult ∨
      (∃ q, m.store d md p = providerFailedResult q) ∨
      ∃ b u, b ∈ m.backends ∧ b.putUri d = some u ∧
        m.store d md p = mkSuccessResult b u d md := by
  cases p with
  | none =>
    rcases storeChain_shape d md m.backends with hex | ⟨b, u, hb, hbu, heq⟩
    · left; exact hex
    · right; right; right; exact ⟨b, u, hb, hbu, heq⟩
  | some q =>
    unfold StorageManager.store StorageManager.storeT
    cases hfind : m.backends.find? (fun b => decide (b.provider = q)) with
    | none => right; left; simp [hfind]
    | some b =>
      cases hput : b.putUri d with
      | none =>
        right; right; left
        exact ⟨q, by simp [hfind, attemptPut, hput]⟩
      | some u =>
        right; right; right
        exact ⟨b, u, List.mem_of_find?_eq_some hfind, hput, by
          simp [hfind, attemptPut, hput]⟩

/-- A `store` result with `success = true` is the success result of some
backend in the configured list; in particular its hash is the deterministic
content hash of the stored bytes. -/
theorem store_success_shape (m : StorageManager) (d : Bytes)
    (md : List (String × String)) (p : Option StorageProvider)
    (hs : (m.store d md p).success = true) :
    ∃ b u, b ∈ m.backends ∧ b.putUri d = some u ∧
      m.store d md p = mkSuccessResult b u d md := by
  rcases store_shape m d md p with h | h | ⟨q, h⟩ | h
  · rw [h] at hs; exact absurd hs (by simp [exhaustedResult])
  · rw [h] at hs; exact absurd hs (by simp [unknownProviderResult])
  · rw [h] at hs; exact absurd hs (by simp [providerFailedResult])
  · exact h

/-- Explicit form of a compute result when the backend submission succeeds:
every field of the assembled record, in particular the locally computed
execution hash (the backend's `claimedHash` appears nowhere). -/
theorem execute_eq (m : ComputeManager) (fn : String) (data : Bytes)
    (receipt : ExecutionReceipt)
    (hsub : m.backend.submit fn data = some receipt) :
    m.executeWithIntegrityProof fn data = some
      { provider := m.backend.provider
        verificationMethod := m.method
        executionHash := localExecutionHash fn data receipt.rawOutput
        proof := (m.verifyReceipt receipt).2
        output := receipt.rawOutput
        timestamp := receipt.timestamp
        verified := (m.verifyReceipt receipt).1
        reputationBonus := (m.verifyReceipt receipt).1 && bonusEligible m.method
        reputationMultiplier :=
          if (m.verifyReceipt receipt).1 && bonusEligible m.method then
            methodMultiplier m.method
          else 1 } := by
  unfold ComputeManager.executeWithIntegrityProof
  rw [hsub]

/-- The compute result determined by a successful submission, as a record
equation usable for field-by-field reasoning. -/
theorem execute_result_eq (m : ComputeManager) (fn : String) (data : Bytes)
    (receipt : ExecutionReceipt) (r : ComputeResult)
    (hsub : m.backend.submit fn data = some receipt)
    (hr : m.executeWithIntegrityProof fn data = some r) :
    r = { provider := m.backend.provider
          verificationMethod := m.method
          executionHash := localExecutionHash fn data receipt.rawOutput
          proof := (m.verifyReceipt receipt).2
          output := receipt.rawOutput
          timestamp := receipt.timestamp
          verified := (m.verifyReceipt receipt).1
          reputationBonus := (m.verifyReceipt receipt).1 && bonusEligible m.method
          reputationMultiplier :=
            if (m.verifyReceipt receipt).1 && bonusEligible m.method then
              methodMultiplier m.method
            else 1 } := by
  have h2 := execute_eq m fn data receipt hsub
  rw [hr] at h2
  exact Option.some.inj h2

/-! ## Claim theorems -/

/-- C1: content-addressing round trip.  If `store` (no explicit provider)
succeeds with uri `u` and hash `h`, then — with the owning backend resolvable
from `u` and honestly serving back the stored bytes — `verify(u, h)` returns
`true`, and `verify(u, h')` returns `false` for every `h'` different from the
deterministic content hash of the payload (zero-length payloads included,
since `d` ranges over all byte lists). -/
theorem store_verify_round_trip (m : StorageManager) (d : Bytes)
    (md : List (String × String)) (b : StorageBackend)
    (hs : (m.store d md none).success = true)
    (hres : resolveBackend m.backends (m.store d md none).uri = some b)
    (hfetch : b.fetch (m.store d md none).uri = some d) :
    m.verify (m.store d md none).uri (m.store d md none).hash = true ∧
    ∀ h' : String, h' ≠ hashStr d →
      m.verify (m.store d md none).uri h' = false := by
  obtain ⟨c, u, hc, hcu, heq⟩ := store_success_shape m d md none hs
  have hhash : (m.store d md none).hash = hashStr d := by
    rw [heq]; rfl
  have hval : ∀ e : String,
      m.verify (m.store d md none).uri e = (hashStr d == e) := by
    intro e
    simp [StorageManager.verify, hres, getAndVerify, hfetch]
  constructor
  · rw [hval, hhash]
    exact beq_self_eq_true (hashStr d)
  · intro h' hne
    rw [hval]
    exact beq_eq_false_iff_ne.mpr fun hh => hne hh.symm

/-- C1 witness: the round trip evaluated on a concrete manager, payload and
backend. -/
theorem store_verify_round_trip_witness :
    demoStorageManager.verify (demoStorageManager.store demoBytes [] none).uri
        (demoStorageManager.store demoBytes [] none).hash = true ∧
    ∀ h' : String, h' ≠ hashStr demoBytes →
      demoStorageManager.verify (demoStorageManager.store demoBytes [] none).uri
        h' = false :=
  store_verify_round_trip demoStorageManager demoBytes [] memoryBackend rfl rfl rfl

/-- C2: the execution hash of every compute result is the Manager's local
content hash over `(functionName, data, rawOutput)` — the raw output the
result itself carries and the raw output of the backend's receipt alike — so
an independent recomputation from those three values reproduces it; the
backend-claimed hash is never used. -/
theorem execution_hash_locally_recomputable (m : ComputeManager) (fn : String)
    (data : Bytes) (r : ComputeResult)
    (hr : m.executeWithIntegrityProof fn data = some r) :
    r.executionHash = localExecutionHash fn data r.output ∧
    ∀ receipt : ExecutionReceipt, m.backend.submit fn data = some receipt →
      r.executionHash = localExecutionHash fn data receipt.rawOutput ∧
      r.output = receipt.rawOutput := by
  cases hsub : m.backend.submit fn data with
  | none =>
    rw [ComputeManager.executeWithIntegrityProof, hsub] at hr
    cases hr
  | some receipt =>
    have heq := execute_result_eq m fn data receipt r hsub hr
    subst heq
    refine ⟨rfl, fun receipt' hsub' => ?_⟩
    have hrr : receipt' = receipt := (Option.some.inj hsub').symm
    subst hrr
    exact ⟨rfl, rfl⟩

/-- C2 witness: the execution-hash equation evaluated on the concrete demo
compute manager. -/
theorem execution_hash_locally_recomputable_witness :
    demoComputeResult.executionHash =
      localExecutionHash "analyze_customer_data" [7] demoComputeResult.output ∧
    ∀ receipt : ExecutionReceipt,
      demoComputeManager.backend.submit "analyze_customer_data" [7] =
          some receipt →
        demoComputeResult.executionHash =
          localExecutionHash "analyze_customer_data" [7] receipt.rawOutput ∧
        demoComputeResult.output = receipt.rawOutput :=
  execution_hash_locally_recomputable demoComputeManager "analyze_customer_data"
    [7] demoComputeResult rfl

/-- C3: fallback ordering.  When `store` is called without an explicit
provider and the configured chain is `pre ++ b :: post` where every backend
in `pre` fails and `b` succeeds, the returned result is `b`'s success result
(its provider is `b`'s), and the backends whose `put` was invoked are exactly
those of `pre` followed by `b` — nothing in `post` is ever invoked. -/
theorem store_fallback_first_success_wins (m : StorageManager) (d : Bytes)
    (md : List (String × String)) (pre : List StorageBackend)
    (b : StorageBackend) (post : List StorageBackend) (u : String)
    (hbs : m.backends = pre ++ b :: post)
    (hpre : ∀ a ∈ pre, a.putUri d = none)
    (hb : b.putUri d = some u) :
    m.store d md none = mkSuccessResult b u d md ∧
    (m.store d md none).provider = some b.provider ∧
    m.storeAttempted d md none =
      pre.map (fun a => a.provider) ++ [b.provider] := by
  have hchain := storeChain_first_success d md pre b post u hpre hb
  refine ⟨?_, ?_, ?_⟩ <;>
    simp [StorageManager.store, StorageManager.storeAttempted,
      StorageManager.storeT, hbs, hchain, mkSuccessResult]

/-- C3 witness: the `[A fails, B succeeds, C succeeds]` scenario — the result
comes from the Pinata backend and the local-IPFS backend is never invoked. -/
theorem store_fallback_first_success_wins_witness :
    fallbackStorageManager.store demoBytes [] none =
      mkSuccessResult pinataBackend "pinata://obj2" demoBytes [] ∧
    (fallbackStorageManager.store demoBytes [] none).provider =
      some pinataBackend.provider ∧
    fallbackStorageManager.storeAttempted demoBytes [] none =
      [failingZerogBackend].map (fun a => a.provider) ++
        [pinataBackend.provider] :=
  store_fallback_first_success_wins fallbackStorageManager demoBytes []
    [failingZerogBackend] pinataBackend [localIPFSBackend] "pinata://obj2" rfl
    (by intro a ha; rw [List.mem_singleton] at ha; subst ha; rfl) rfl

/-- C4: exhaustion.  When `store` runs without an explicit provider and every
backend in the chain fails, the result is the exhausted result —
`success = false`, error exactly "all providers exhausted", empty uri and
hash (no partial or corrupt uri).  Individual backend failures are absorbed:
`store` is a total function, so the chain never aborts mid-way. -/
theorem store_all_backends_exhausted (m : StorageManager) (d : Bytes)
    (md : List (String × String))
    (hall : ∀ b ∈ m.backends, b.putUri d = none) :
    m.store d md none = exhaustedResult ∧
    (m.store d md none).success = false ∧
    (m.store d md none).error = some "all providers exhausted" ∧
    (m.store d md none).uri = "" ∧
    (m.store d md none).hash = "" := by
  have h := storeChain_exhausted d md m.backends hall
  refine ⟨?_, ?_, ?_, ?_, ?_⟩ <;>
    simp [StorageManager.store, StorageManager.storeT, h, exhaustedResult]

/-- C4 witness: the two-failing-backends scenario. -/
theorem store_all_backends_exhausted_witness :
    exhaustedStorageManager.store demoBytes [] none = exhaustedResult ∧
    (exhaustedStorageManager.store demoBytes [] none).success = false ∧
    (exhaustedStorageManager.store demoBytes [] none).error =
      some "all providers exhausted" ∧
    (exhaustedStorageManager.store demoBytes [] none).uri = "" ∧
    (exhaustedStorageManager.store demoBytes [] none).hash = "" :=
  store_all_backends_exhausted exhaustedStorageManager demoBytes []
    (by
      intro b hb
      rcases List.mem_cons.mp hb with h | h
      · subst h; rfl
      · rw [List.mem_singleton] at h; subst h; rfl)

/-- C5: reputation policy table.  In every compute result: the bonus holds
iff the result verified and the configured method is policy-flagged
bonus-eligible; the no-op method yields no bonus and multiplier 1.0; the
attestation-based (TEE) method yields verified/bonus/multiplier 1.5 on a
valid attestation; on an invalid attestation it yields `verified = false`
and no bonus while the raw output is still returned. -/
theorem reputation_policy_table (m : ComputeManager) (fn : String)
    (data : Bytes) (receipt : ExecutionReceipt) (r : ComputeResult)
    (hsub : m.backend.submit fn data = some receipt)
    (hr : m.executeWithIntegrityProof fn data = some r) :
    r.reputationBonus = (r.verified && bonusEligible m.method) ∧
    (m.method = VerificationMethod.noVerification →
      r.reputationBonus = false ∧ r.reputationMultiplier = 1) ∧
    (m.method = VerificationMethod.teeML →
      attestationValid m.attestationRoot receipt = true →
      r.verified = true ∧ r.reputationBonus = true ∧
        r.reputationMultiplier = 3 / 2) ∧
    (m.method = VerificationMethod.teeML →
      attestationValid m.attestationRoot receipt = false →
      r.verified = false ∧ r.reputationBonus = false ∧
        r.output = receipt.rawOutput) := by
  have heq := execute_result_eq m fn data receipt r hsub hr
  subst heq
  cases hm : m.method with
  | noVerification =>
    simp [ComputeManager.verifyReceipt, hm, bonusEligible, methodMultiplier]
  | teeML =>
    cases hv : attestationValid m.attestationRoot receipt with
    | true =>
      simp [ComputeManager.verifyReceipt, hm, hv, bonusEligible,
        methodMultiplier]
    | false =>
      simp [ComputeManager.verifyReceipt, hm, hv, bonusEligible,
        methodMultiplier]

/-- C5 witness: the policy table evaluated on the TEE-verifying demo manager,
whose backend returns a valid attestation. -/
theorem reputation_policy_table_witness :
    demoComputeResult.reputationBonus =
      (demoComputeResult.verified && bonusEligible demoComputeManager.method) ∧
    (demoComputeManager.method = VerificationMethod.noVerification →
      demoComputeResult.reputationBonus = false ∧
        demoComputeResult.reputationMultiplier = 1) ∧
    (demoComputeManager.method = VerificationMethod.teeML →
      attestationValid demoComputeManager.attestationRoot demoReceipt = true →
      demoComputeResult.verified = true ∧
        demoComputeResult.reputationBonus = true ∧
        demoComputeResult.reputationMultiplier = 3 / 2) ∧
    (demoComputeManager.method = VerificationMethod.teeML →
      attestationValid demoComputeManager.attestationRoot demoReceipt = false →
      demoComputeResult.verified = false ∧
        demoComputeResult.reputationBonus = false ∧
        demoComputeResult.output = demoReceipt.rawOutput) :=
  reputation_policy_table demoComputeManager "analyze_customer_data" [7]
    demoReceipt demoComputeResult rfl rfl

/-- C6: `verify` is a total boolean function (it is a Lean function into
`Bool`, so it returns a boolean on every input and cannot raise), and it
returns `false` whenever the owning backend cannot be resolved from the uri,
whenever the fetch fails, and whenever the fetched bytes hash to a value
other than the expected hash. -/
theorem verify_total_and_false_cases (m : StorageManager) (uri h : String) :
    (m.verify uri h = true ∨ m.verify uri h = false) ∧
    (resolveBackend m.backends uri = none → m.verify uri h = false) ∧
    (∀ b : StorageBackend, resolveBackend m.backends uri = some b →
      b.fetch uri = none → m.verify uri h = false) ∧
    (∀ (b : StorageBackend) (bs : Bytes),
      resolveBackend m.backends uri = some b → b.fetch uri = some bs →
      hashStr bs ≠ h → m.verify uri h = false) := by
  refine ⟨?_, ?_, ?_, ?_⟩
  · cases hv : m.verify uri h
    · right; rfl
    · left; rfl
  · intro hres
    simp [StorageManager.verify, hres]
  · intro b hres hf
    simp [StorageManager.verify, hres, getAndVerify, hf]
  · intro b bs hres hf hne
    simp only [StorageManager.verify, hres, getAndVerify, hf]
    exact beq_eq_false_iff_ne.mpr hne

/-- C6 witness: the false cases evaluated at a uri no backend owns. -/
theorem verify_total_and_false_cases_witness :
    (demoStorageManager.verify "bad://x" "0xfeed" = true ∨
      demoStorageManager.verify "bad://x" "0xfeed" = false) ∧
    (resolveBackend demoStorageManager.backends "bad://x" = none →
      demoStorageManager.verify "bad://x" "0xfeed" = false) ∧
    (∀ b : StorageBackend,
      resolveBackend demoStorageManager.backends "bad://x" = some b →
      b.fetch "bad://x" = none →
      demoStorageManager.verify "bad://x" "0xfeed" = false) ∧
    (∀ (b : StorageBackend) (bs : Bytes),
      resolveBackend demoStorageManager.backends "bad://x" = some b →
      b.fetch "bad://x" = some bs → hashStr bs ≠ "0xfeed" →
      demoStorageManager.verify "bad://x" "0xfeed" = false) :=
  verify_total_and_false_cases demoStorageManager "bad://x" "0xfeed"

/-- C7: StorageResult field invariant.  For every `store` result (with or
without an explicit provider): `success = false` implies the uri and hash
are empty and the error is populated; `success = true` implies the hash is
non-empty and equals the deterministic content hash of the stored bytes,
hence is independently recomputable. -/
theorem storage_result_field_invariant (m : StorageManager) (d : Bytes)
    (md : List (String × String)) (p : Option StorageProvider) :
    ((m.store d md p).success = false →
      (m.store d md p).uri = "" ∧ (m.store d md p).hash = "" ∧
        (m.store d md p).error ≠ none) ∧
    ((m.store d md p).success = true →
      (m.store d md p).hash ≠ "" ∧ (m.store d md p).hash = hashStr d) := by
  rcases store_shape m d md p with h | h | ⟨q, h⟩ | ⟨b, u, hb, hbu, h⟩ <;> rw [h]
  · exact ⟨fun _ => ⟨rfl, rfl, by simp [exhaustedResult]⟩,
      fun hs => absurd hs (by simp [exhaustedResult])⟩
  · exact ⟨fun _ => ⟨rfl, rfl, by simp [unknownProviderResult]⟩,
      fun hs => absurd hs (by simp [unknownProviderResult])⟩
  · exact ⟨fun _ => ⟨rfl, rfl, by simp [providerFailedResult]⟩,
      fun hs => absurd hs (by simp [providerFailedResult])⟩
  · exact ⟨fun hf => absurd hf (by simp [mkSuccessResult]),
      fun _ => ⟨hashStr_ne_empty d, rfl⟩⟩

/-- C7 witness: the invariant evaluated on a concrete successful store. -/
theorem storage_result_field_invariant_witness :
    ((demoStorageManager.store demoBytes [] none).success = false →
      (demoStorageManager.store demoBytes [] none).uri = "" ∧
        (demoStorageManager.store demoBytes [] none).hash = "" ∧
        (demoStorageManager.store demoBytes [] none).error ≠ none) ∧
    ((demoStorageManager.store demoBytes [] none).success = true →
      (demoStorageManager.store demoBytes [] none).hash ≠ "" ∧
        (demoStorageManager.store demoBytes [] none).hash =
          hashStr demoBytes) :=
  storage_result_field_invariant demoStorageManager demoBytes [] none

/-- C8: explicit-provider stores attempt only the named backend.  The
attempted-provider trace is `[]` (provider not configured) or exactly `[p]`;
if the named backend fails the call fails with no fallback (even when other
configured backends would succeed); and zero-length payloads are valid
input — when the named backend accepts the empty payload the store
succeeds. -/
theorem explicit_provider_no_fallback (m : StorageManager) (d : Bytes)
    (md : List (String × String)) (p : StorageProvider) :
    (m.storeAttempted d md (some p) = [] ∨
      m.storeAttempted d md (some p) = [p]) ∧
    (∀ b : StorageBackend,
      m.backends.find? (fun a => decide (a.provider = p)) = some b →
      b.putUri d = none →
      (m.store d md (some p)).success = false ∧
        m.storeAttempted d md (some p) = [p]) ∧
    (∀ (b : StorageBackend) (u : String),
      m.backends.find? (fun a => decide (a.provider = p)) = some b →
      b.putUri [] = some u →
      (m.store [] md (some p)).success = true ∧
        (m.store [] md (some p)).uri = u ∧
        (m.store [] md (some p)).hash = hashStr []) := by
  refine ⟨?_, ?_, ?_⟩
  · cases hfind : m.backends.find? (fun a => decide (a.provider = p)) with
    | none =>
      left
      simp [StorageManager.storeAttempted, StorageManager.storeT, hfind]
    | some b =>
      right
      have hfp := List.find?_some hfind
      have hbp : b.provider = p := of_decide_eq_true hfp
      cases hput : b.putUri d with
      | none =>
        simp [StorageManager.storeAttempted, StorageManager.storeT, hfind,
          attemptPut, hput, hbp]
      | some u =>
        simp [StorageManager.storeAttempted, StorageManager.storeT, hfind,
          attemptPut, hput, hbp]
  · intro b hfind hput
    have hfp := List.find?_some hfind
    have hbp : b.provider = p := of_decide_eq_true hfp
    constructor
    · simp [StorageManager.store, StorageManager.storeT, hfind, attemptPut,
        hput, providerFailedResult]
    · simp [StorageManager.storeAttempted, StorageManager.storeT, hfind,
        attemptPut, hput, hbp]
  · intro b u hfind hput
    refine ⟨?_, ?_, ?_⟩ <;>
      simp [StorageManager.store, StorageManager.storeT, hfind, attemptPut,
        hput, mkSuccessResult]

/-- C8 witness: explicit-provider behavior evaluated on the chain whose 0G
backend fails while the Pinata backend accepts every payload, the empty one
included. -/
theorem explicit_provider_no_fallback_witness :
    (fallbackStorageManager.storeAttempted demoBytes []
        (some StorageProvider.pinata) = [] ∨
      fallbackStorageManager.storeAttempted demoBytes []
        (some StorageProvider.pinata) = [StorageProvider.pinata]) ∧
    (∀ b : StorageBackend,
      fallbackStorageManager.backends.find?
          (fun a => decide (a.provider = StorageProvider.pinata)) = some b →
      b.putUri demoBytes = none →
      (fallbackStorageManager.store demoBytes []
          (some StorageProvider.pinata)).success = false ∧
        fallbackStorageManager.storeAttempted demoBytes []
          (some StorageProvider.pinata) = [StorageProvider.pinata]) ∧
    (∀ (b : StorageBackend) (u : String),
      fallbackStorageManager.backends.find?
          (fun a => decide (a.provider = StorageProvider.pinata)) = some b →
      b.putUri [] = some u →
      (fallbackStorageManager.store [] []
          (some StorageProvider.pinata)).success = true ∧
        (fallbackStorageManager.store [] []
          (some StorageProvider.pinata)).uri = u ∧
        (fallbackStorageManager.store [] []
          (some StorageProvider.pinata)).hash = hashStr []) :=
  explicit_provider_no_fallback fallbackStorageManager demoBytes []
    StorageProvider.pinata

/-- C9: every example function of the demo script absorbs the exceptions its
try-block raises and returns its sentinel — `(None, None)` for example 1,
`None` for examples 2 and 3, `False` for examples 4 and 5 — so `main` runs
all five examples to completion and always reaches the final summary panel,
whatever each example's body does. -/
theorem examples_absorb_exceptions :
    (∀ e : String,
      @example_1_basic_0g_agent Unit (Except.error e) = (none, none)) ∧
    (∀ e : String, example_2_0g_storage (Except.error e) = none) ∧
    (∀ e : String, example_3_0g_compute (Except.error e) = none) ∧
    (∀ e : String, example_4_complete_workflow (Except.error e) = false) ∧
    (∀ e : String, example_5_multi_provider (Except.error e) = false) ∧
    ∀ (b1 : Except String (Unit × Nat)) (b2 : Except String (Option String))
      (b3 : Except String ComputeResult) (b4 b5 : Except String Unit),
      mainScript b1 b2 b3 b4 b5 = true :=
  ⟨fun _ => rfl, fun _ => rfl, fun _ => rfl, fun _ => rfl, fun _ => rfl,
    fun _ _ _ _ _ => rfl⟩

/-- C10: the JSON view of every compute result is a string-keyed object
containing the eight keys the demo reads; `execution_hash` and `proof` map
to JSON strings (sliceable values), and `timestamp` maps to a JSON number —
the whole value is JSON-encodable by construction of `Json`, which has no
raw-bytes constructor. -/
theorem compute_result_json_view (r : ComputeResult) :
    r.toJson.lookupKey "provider" = some (Json.str r.provider) ∧
    r.toJson.lookupKey "verification_method" =
      some (Json.str r.verificationMethod.methodName) ∧
    r.toJson.lookupKey "execution_hash" = some (Json.str r.executionHash) ∧
    r.toJson.lookupKey "proof" = some (Json.str r.proof) ∧
    r.toJson.lookupKey "output" = some (Json.str (bytesToHex r.output)) ∧
    r.toJson.lookupKey "timestamp" = some (Json.num r.timestamp) ∧
    r.toJson.lookupKey "verified" = some (Json.bool r.verified) ∧
    r.toJson.lookupKey "reputation_bonus" =
      some (Json.bool r.reputationBonus) ∧
    r.toJson.lookupKey "reputation_multiplier" =
      some (Json.num r.reputationMultiplier) :=
  ⟨rfl, rfl, rfl, rfl, rfl, rfl, rfl, rfl, rfl⟩
